import Mathlib

/-!
Verification of the vnpy_webtrader web service (`src/vnpy_webtrader/web.py`)
against its natural-language specification.

The development shallowly embeds the authentication layer (password check,
token issuance and verification), the authenticated REST routes, and the
websocket connection registry with its broadcast loop.  Timestamps are
naturals counting seconds; the third-party JWT library (python-jose) and
the password-hashing library (passlib) are not part of the repository
source, so their behaviour is modelled from the specification, as marked
on each such definition.
-/

namespace WebTrader

/-- Claims carried by a JWT payload that this service ever reads: the
subject claim `sub` (optional, `payload.get("sub")` may return `None`)
and the expiry claim `exp` as a timestamp in seconds. -/
structure JwtClaims where
  sub : Option String
  exp : Nat
deriving DecidableEq, Repr

/-- Modelled from the spec: the three distinct verification failures of
`verify(token)` described in section 4.1 — `InvalidSignature` when the
signature does not validate, `Expired` when `now >= expires-at`, and
`MalformedToken` when the token cannot be parsed.  In the code these are
the exception classes raised by `jose.jwt.decode`. -/
inductive JwtError where
  | invalidSignature
  | expired
  | malformedToken
deriving DecidableEq, Repr

/-- A wire-level token: either a structurally well-formed signed token
(payload plus signature) or an unparseable string. -/
inductive JwtToken where
  | signed (claims : JwtClaims) (sig : String × JwtClaims)
  | garbage (raw : String)
deriving DecidableEq, Repr

/-- Modelled from the spec: the signing primitive (an ideal MAC over the
payload under the server-held secret).  Two signatures agree exactly when
both the key and the signed payload agree. -/
def jwtSign (key : String) (claims : JwtClaims) : String × JwtClaims :=
  (key, claims)

/-- Modelled from the spec: `jose.jwt.encode(to_encode, key, algorithm)` —
signs the payload with the server-held secret and fixed algorithm. -/
def jwtEncode (claims : JwtClaims) (key : String) : JwtToken :=
  .signed claims (jwtSign key claims)

/-- Modelled from the spec: `jose.jwt.decode(token, key, algorithms)` at
time `now`.  Fails with `malformedToken` if the token cannot be parsed,
`invalidSignature` if the signature does not validate under `key`, and
`expired` if `now >= exp`; on success returns the payload. -/
def jwtDecode (token : JwtToken) (key : String) (now : Nat) :
    Except JwtError JwtClaims :=
  match token with
  | .garbage _ => .error .malformedToken
  | .signed claims sig =>
    if sig = jwtSign key claims then
      if claims.exp ≤ now then .error .expired
      else .ok claims
    else .error .invalidSignature

deriving instance DecidableEq for Except

/-- An HTTP error response (`fastapi.HTTPException`), reduced to the
fields the claims mention. -/
structure HTTPException where
  status_code : Nat
  detail : String
deriving DecidableEq, Repr

/-- The 401 response raised by both REST and websocket authentication
(`web.py` lines 123-127 and 288-292). -/
def credentials_exception : HTTPException :=
  { status_code := 401, detail := "Could not validate credentials" }

/-- Modelled from the spec: `secrets.compare_digest`, a constant-time
string comparison; functionally it is string equality. -/
def compare_digest (a b : String) : Bool :=
  a == b

/-- Modelled from the spec: `pwd_context.hash` of passlib under the
configured `sha256_crypt` scheme; the hash is opaque, tagged with its
scheme. -/
def pwd_context_hash (password : String) : String × String :=
  ("sha256_crypt", password)

/-- Modelled from the spec: `pwd_context.verify password hashed` —
verification succeeds exactly when `hashed` is a hash of `password`
under the configured scheme. -/
def pwd_context_verify (password : String) (hashed : String × String) : Bool :=
  hashed == pwd_context_hash password

/-- Server-side signing secret (`web.py` line 57). -/
def SECRET_KEY : String := "test"

/-- Token lifetime in minutes (`web.py` line 59). -/
def ACCESS_TOKEN_EXPIRE_MINUTES : Nat := 30

/-- A `datetime.timedelta(minutes=m)` rendered in seconds. -/
def timedelta_minutes (m : Nat) : Nat :=
  60 * m

/-- User authentication (`web.py` lines 92-104), `authenticate_user`.
`PASSWORD` is the configured password global; the function hashes it,
compares the supplied username against `current_username` with
`compare_digest`, then verifies the supplied password against the hash.
Returns the supplied username on full match and `none` (Python `False`)
otherwise. -/
def authenticate_user (current_username username password PASSWORD : String) :
    Option String :=
  let hashed_password := pwd_context_hash PASSWORD
  if ¬ compare_digest current_username username then none
  else if ¬ pwd_context_verify password hashed_password then none
  else some username

/-- Token creation (`web.py` lines 107-118), `create_access_token`.  The
`data` dictionary at the one call site is `{"sub": username}`, embedded
here as the optional subject; `expires_delta` is a duration in seconds,
defaulting to 15 minutes when absent; the payload is extended with
`exp = now + delta` and signed with `SECRET_KEY`. -/
def create_access_token (data_sub : Option String)
    (expires_delta : Option Nat) (now : Nat) : JwtToken :=
  let expire : Nat :=
    match expires_delta with
    | some delta => now + delta
    | none => now + timedelta_minutes 15
  jwtEncode { sub := data_sub, exp := expire } SECRET_KEY

/-- REST authentication (`web.py` lines 121-139), `get_access` for a
present bearer token.  Decodes the token with `SECRET_KEY`; any
`JWTError` becomes `credentials_exception`, a missing `sub` claim raises
`credentials_exception`, and the extracted username must equal the
configured `USERNAME` under `compare_digest`; on success returns
`true`. -/
def get_access (USERNAME : String) (token : JwtToken) (now : Nat) :
    Except HTTPException Bool :=
  match jwtDecode token SECRET_KEY now with
  | .error _ => .error credentials_exception
  | .ok payload =>
    match payload.sub with
    | none => .error credentials_exception
    | some username =>
      if ¬ compare_digest USERNAME username then .error credentials_exception
      else .ok true

/-- The `OAuth2PasswordBearer` dependency: a request with no bearer token
is rejected with 401 before `get_access` runs; otherwise the token string
is handed to `get_access`. -/
def oauth2_scheme (token : Option JwtToken) : Except HTTPException JwtToken :=
  match token with
  | none => .error { status_code := 401, detail := "Not authenticated" }
  | some t => .ok t

/-- Response body of the login route (`web.py` lines 85-89 and 172):
`{"access_token": ..., "token_type": "bearer"}`. -/
structure TokenResponse where
  access_token : JwtToken
  token_type : String
deriving DecidableEq, Repr

/-- User login (`web.py` lines 156-172), `login`.  Authenticates the form
credentials against the configured pair; on failure raises 401, on
success issues a token for the authenticated username with a
30-minute lifetime. -/
def login (USERNAME PASSWORD form_username form_password : String)
    (now : Nat) : Except HTTPException TokenResponse :=
  match authenticate_user USERNAME form_username form_password PASSWORD with
  | none =>
    .error { status_code := 401, detail := "Incorrect username or password" }
  | some web_username =>
    let access_token := create_access_token (some web_username)
      (some (timedelta_minutes ACCESS_TOKEN_EXPIRE_MINUTES)) now
    .ok { access_token := access_token, token_type := "bearer" }

/-- Contract data returned by the backend adapter
(`vnpy.trader.object.ContractData`), reduced to the fields `send_order`
reads. -/
structure ContractData where
  symbol : String
  exchange : String
  gateway_name : String
deriving DecidableEq, Repr

/-- The order request body (`web.py` lines 197-207), `OrderRequestModel`.
Enumerated fields and the numeric fields are embedded as strings and
integers; none of the claims depend on their arithmetic. -/
structure OrderRequestModel where
  symbol : String
  exchange : String
  direction : String
  type : String
  volume : Int
  price : Int := 0
  offset : String := "none"
  reference : String := ""
deriving DecidableEq, Repr

/-- A call made on the RPC client during one request, recorded so that
theorems can speak about which backend calls a handler performs. -/
inductive BackendCall where
  | get_contract (vt_symbol : String)
  | send_order (symbol : String) (gateway_name : String)
deriving DecidableEq, Repr

/-- The backend adapter (`vnpy.rpc.RpcClient`) as the web layer sees it
during one `/order` request: a contract lookup and the order id the
backend returns for a successful `send_order`. -/
structure RpcClient where
  contracts : String → Option ContractData
  send_order_result : String

/-- Modelled from the spec: `OrderRequest.vt_symbol` of the vnpy trader
interface, the symbol qualified by its exchange (`symbol.exchange`). -/
def vt_symbol (model : OrderRequestModel) : String :=
  model.symbol ++ "." ++ model.exchange

/-- The `/order` POST route (`web.py` lines 210-224), `send_order`,
together with its dependencies: the bearer-token extraction
(`oauth2_scheme`) and REST authentication (`get_access`) run before the
handler body, and a failure in either returns 401 without running the
body.  The result pairs the HTTP outcome with the list of RPC-client
calls made, in order. -/
def send_order_route (USERNAME : String) (rpc : RpcClient)
    (model : OrderRequestModel) (token : Option JwtToken) (now : Nat) :
    Except HTTPException String × List BackendCall :=
  match oauth2_scheme token with
  | .error e => (.error e, [])
  | .ok t =>
    match get_access USERNAME t now with
    | .error e => (.error e, [])
    | .ok _ =>
      match rpc.contracts (vt_symbol model) with
      | none =>
        (.error { status_code := 404,
                  detail := "Contract not found " ++ model.symbol ++ " "
                    ++ model.exchange },
         [.get_contract (vt_symbol model)])
      | some contract =>
        (.ok rpc.send_order_result,
         [.get_contract (vt_symbol model),
          .send_order model.symbol contract.gateway_name])

/-- A live websocket connection: its identity (each Python `WebSocket`
object is distinct) and whether a `send_text` on its transport succeeds
during the broadcast under consideration. -/
structure WS where
  id : Nat
  send_ok : Bool
deriving DecidableEq, Repr

/-- Websocket data broadcasting (`web.py` lines 322-325),
`websocket_broadcast`: iterate over `active_websockets` and
`await websocket.send_text(msg)` on each.  There is no exception
handling, so a failing send raises out of the loop.  The result records
the deliveries made (connection id paired with the message) and, if a
send failed, the id of the connection whose send raised. -/
def websocket_broadcast (active_websockets : List WS) (msg : String) :
    List (Nat × String) × Option Nat :=
  match active_websockets with
  | [] => ([], none)
  | ws :: rest =>
    if ws.send_ok then
      let r := websocket_broadcast rest msg
      ((ws.id, msg) :: r.1, r.2)
    else ([], some ws.id)

/-- Outcome of the websocket handshake dependency. -/
inductive WsAccessResult where
  | policyViolationClose
  | uncaughtError (e : JwtError)
  | accepted
deriving DecidableEq, Repr

/-- Websocket authentication (`web.py` lines 284-303),
`get_websocket_access`.  A missing token closes the socket with
`WS_1008_POLICY_VIOLATION` and raises `credentials_exception`.  A present
token is passed to `jwt.decode` with NO surrounding `try`, so a decode
failure (invalid signature, expired, malformed) propagates uncaught and
`websocket.close(1008)` is never called.  When decoding succeeds, a
missing or mismatching subject closes with the policy-violation code;
otherwise access is granted. -/
def get_websocket_access (USERNAME : String) (token : Option JwtToken)
    (now : Nat) : WsAccessResult :=
  match token with
  | none => .policyViolationClose
  | some t =>
    match jwtDecode t SECRET_KEY now with
    | .error e => .uncaughtError e
    | .ok payload =>
      match payload.sub with
      | none => .policyViolationClose
      | some username =>
        if ¬ compare_digest USERNAME username then .policyViolationClose
        else .accepted

/-- Whether the websocket endpoint (`web.py` lines 307-319) runs for this
handshake and appends the connection to `active_websockets`: the body
executes only when the `get_websocket_access` dependency succeeded. -/
def websocket_endpoint_registers (USERNAME : String)
    (token : Option JwtToken) (now : Nat) : Bool :=
  match get_websocket_access USERNAME token now with
  | .accepted => true
  | _ => false

/-- Reachable states of the connection registry `active_websockets`
(`web.py` lines 278, 313, 319, 322-325).  The registry starts empty; a
completed handshake appends a fresh `WebSocket` object (distinct from
every object already registered); a `WebSocketDisconnect` caught in the
endpoint removes the first occurrence of that connection; a broadcast
(`websocket_broadcast`) performs no registry mutation at all, whether or
not a send in it fails. -/
inductive Reachable : List WS → Prop where
  | init : Reachable []
  | connect (s : List WS) (ws : WS) (h : ws.id ∉ s.map WS.id) :
      Reachable s → Reachable (s ++ [ws])
  | disconnect (s : List WS) (ws : WS) (h : ws ∈ s) :
      Reachable s → Reachable (s.erase ws)
  | broadcast (s : List WS) (msg : String) :
      Reachable s → Reachable s

/-- Helper: `authenticate_user` in closed form — it returns the supplied
username exactly when both the username and the password match the
configured pair, and `none` otherwise. -/
theorem authenticate_user_eq (cu u p PW : String) :
    authenticate_user cu u p PW = if cu = u ∧ p = PW then some u else none := by
  simp only [authenticate_user, compare_digest, pwd_context_verify,
    pwd_context_hash, beq_iff_eq, Prod.mk.injEq]
  by_cases h1 : cu = u <;> by_cases h2 : p = PW <;>
    simp [h1, h2, eq_comm]

/-- Helper: `get_access` either grants access or raises exactly
`credentials_exception` (HTTP 401). -/
theorem get_access_cases (USERNAME : String) (token : JwtToken) (now : Nat) :
    get_access USERNAME token now = .ok true ∨
    get_access USERNAME token now = .error credentials_exception := by
  cases hd : jwtDecode token SECRET_KEY now with
  | error e => right; simp [get_access, hd]
  | ok payload =>
    cases hs : payload.sub with
    | none => right; simp [get_access, hd, hs]
    | some username =>
      by_cases hu : compare_digest USERNAME username
      · left; simp [get_access, hd, hs, hu]
      · right; simp [get_access, hd, hs, hu]

/-- Helper: `get_access` grants access exactly to tokens signed with the
server secret whose subject is the configured username and whose expiry
is strictly in the future. -/
theorem get_access_ok_iff (USERNAME : String) (token : JwtToken) (now : Nat) :
    get_access USERNAME token now = .ok true ↔
      ∃ e, token = jwtEncode { sub := some USERNAME, exp := e } SECRET_KEY
        ∧ now < e := by
  constructor
  · intro h
    cases token with
    | garbage raw => simp [get_access, jwtDecode] at h
    | signed claims sig =>
      by_cases hsig : sig = jwtSign SECRET_KEY claims
      · by_cases hexp : claims.exp ≤ now
        · simp [get_access, jwtDecode, hsig, hexp] at h
        · cases hs : claims.sub with
          | none => simp [get_access, jwtDecode, hsig, hexp, hs] at h
          | some u =>
            by_cases hu : compare_digest USERNAME u
            · have hu' : USERNAME = u := by simpa [compare_digest] using hu
              refine ⟨claims.exp, ?_, by omega⟩
              cases claims with
              | mk sb ex =>
                simp only at hs
                subst hs
                subst hsig
                subst hu'
                rfl
            · simp [get_access, jwtDecode, hsig, hexp, hs, hu] at h
      · simp [get_access, jwtDecode, hsig] at h
  · rintro ⟨e, rfl, hlt⟩
    have hne : ¬ e ≤ now := by omega
    simp [get_access, jwtDecode, jwtEncode, compare_digest, hne]

/-- C3: a token presented to the REST authentication check succeeds if
and only if it is signed with the server secret, the current time is
strictly before its expiry, and its subject equals the configured
username; every other token is rejected with the Unauthorized
(`credentials_exception`, HTTP 401) response. -/
theorem get_access_correct (USERNAME : String) (token : JwtToken) (now : Nat) :
    (get_access USERNAME token now = .ok true ↔
      ∃ e, token = jwtEncode { sub := some USERNAME, exp := e } SECRET_KEY
        ∧ now < e)
    ∧ (get_access USERNAME token now = .ok true ∨
       get_access USERNAME token now = .error credentials_exception) :=
  ⟨get_access_ok_iff USERNAME token now, get_access_cases USERNAME token now⟩

/-- Witness for C3: a fresh token for the configured user is accepted,
and a token for another identity is rejected. -/
theorem get_access_correct_witness :
    get_access "web" (jwtEncode { sub := some "web", exp := 100 } SECRET_KEY) 5
      = .ok true
    ∧ get_access "web"
        (jwtEncode { sub := some "mallory", exp := 100 } SECRET_KEY) 5
      = .error credentials_exception := by
  constructor
  · exact (get_access_correct "web"
      (jwtEncode { sub := some "web", exp := 100 } SECRET_KEY) 5).1.mpr
      ⟨100, rfl, by decide⟩
  · rcases (get_access_correct "web"
      (jwtEncode { sub := some "mallory", exp := 100 } SECRET_KEY) 5).2 with
        h | h
    · exact absurd h (by decide)
    · exact h

/-- C5: `authenticate_user` succeeds (returning the supplied username,
which then equals the configured one) exactly when the supplied username
equals the configured username and the password matches the configured
password — string comparisons are exact, so empty strings and
case-variants fail — and every failure returns the same `none` (Python
`False`), revealing nothing about which of the two was wrong. -/
theorem authenticate_user_correct (cu u p PW : String) :
    (authenticate_user cu u p PW = some u ↔ cu = u ∧ p = PW)
    ∧ (¬ (cu = u ∧ p = PW) → authenticate_user cu u p PW = none) := by
  rw [authenticate_user_eq]
  by_cases h : cu = u ∧ p = PW <;> simp [h]

/-- Witness for C5: the matching pair succeeds; a case-variant username,
a wrong password and the empty pair all fail identically. -/
theorem authenticate_user_correct_witness :
    authenticate_user "web" "web" "pw" "pw" = some "web"
    ∧ authenticate_user "web" "Web" "pw" "pw" = none
    ∧ authenticate_user "web" "web" "PW" "pw" = none
    ∧ authenticate_user "web" "" "" "pw" = none :=
  ⟨(authenticate_user_correct "web" "web" "pw" "pw").1.mpr (by decide),
   (authenticate_user_correct "web" "Web" "pw" "pw").2 (by decide),
   (authenticate_user_correct "web" "web" "PW" "pw").2 (by decide),
   (authenticate_user_correct "web" "" "" "pw").2 (by decide)⟩

/-- C10: a token that decodes successfully (valid signature, not yet
expired) but whose payload carries no `sub` claim is rejected by the REST
authentication check with the Unauthorized response, not accepted. -/
theorem get_access_rejects_missing_sub (USERNAME : String) (now e : Nat)
    (h : now < e) :
    get_access USERNAME (jwtEncode { sub := none, exp := e } SECRET_KEY) now
      = .error credentials_exception := by
  have hne : ¬ e ≤ now := by omega
  simp [get_access, jwtDecode, jwtEncode, hne]

/-- Witness for C10 at a concrete unexpired subject-less token. -/
theorem get_access_rejects_missing_sub_witness :
    get_access "web" (jwtEncode { sub := none, exp := 100 } SECRET_KEY) 5
      = .error credentials_exception :=
  get_access_rejects_missing_sub "web" 5 100 (by decide)

/-- C6: a token created by `create_access_token` for subject `s` and
immediately decoded yields the same subject `s` back; and any structured
token whose expiry is at or before the current time is rejected by the
decoder no matter whether its signature is valid. -/
theorem token_issue_verify_roundtrip (s key' : String) (now delta : Nat)
    (hdelta : 0 < delta) (claims : JwtClaims) (sig : String × JwtClaims)
    (hexp : claims.exp ≤ now) :
    jwtDecode (create_access_token (some s) (some delta) now) SECRET_KEY now
      = .ok { sub := some s, exp := now + delta }
    ∧ ∃ e, jwtDecode (.signed claims sig) key' now = .error e := by
  constructor
  · have hne : ¬ now + delta ≤ now := by omega
    simp [create_access_token, jwtDecode, jwtEncode, hne]
  · by_cases hsig : sig = jwtSign key' claims
    · exact ⟨.expired, by simp [jwtDecode, hsig, hexp]⟩
    · exact ⟨.invalidSignature, by simp [jwtDecode, hsig]⟩

/-- Witness for C6: round trip at subject `web` with the 30-minute
lifetime, and rejection of a concrete expired token carrying a valid
signature. -/
theorem token_issue_verify_roundtrip_witness :
    jwtDecode (create_access_token (some "web") (some 1800) 7) SECRET_KEY 7
      = .ok { sub := some "web", exp := 7 + 1800 }
    ∧ ∃ e, jwtDecode (.signed { sub := some "web", exp := 3 }
        (jwtSign SECRET_KEY { sub := some "web", exp := 3 })) SECRET_KEY 7
        = .error e :=
  token_issue_verify_roundtrip "web" SECRET_KEY 7 1800 (by decide)
    { sub := some "web", exp := 3 }
    (jwtSign SECRET_KEY { sub := some "web", exp := 3 }) (by decide)

/-- C7: every decoding failure is one of three pairwise-distinct errors
matching its cause — `malformedToken` for an unparseable token,
`invalidSignature` for a signature that does not validate under the key,
and `expired` for a well-signed token whose expiry is at or before the
current time. -/
theorem jwtDecode_error_taxonomy (key : String) (now : Nat) :
    (∀ raw, jwtDecode (.garbage raw) key now = .error .malformedToken)
    ∧ (∀ claims sig, sig ≠ jwtSign key claims →
        jwtDecode (.signed claims sig) key now = .error .invalidSignature)
    ∧ (∀ claims, claims.exp ≤ now →
        jwtDecode (.signed claims (jwtSign key claims)) key now
          = .error .expired)
    ∧ ([JwtError.invalidSignature, JwtError.expired,
        JwtError.malformedToken].Nodup) :=
  ⟨fun _ => rfl,
   fun _ sig hsig => by simp [jwtDecode, hsig],
   fun _ hexp => by simp [jwtDecode, hexp],
   by decide⟩

/-- Witness for C7: the three failure causes at concrete tokens. -/
theorem jwtDecode_error_taxonomy_witness :
    jwtDecode (.garbage "x") SECRET_KEY 0 = .error .malformedToken
    ∧ jwtDecode (.signed { sub := some "web", exp := 9 }
        ("bad", { sub := some "web", exp := 9 })) SECRET_KEY 0
      = .error .invalidSignature
    ∧ jwtDecode (.signed { sub := some "web", exp := 9 }
        (jwtSign SECRET_KEY { sub := some "web", exp := 9 })) SECRET_KEY 9
      = .error .expired :=
  ⟨(jwtDecode_error_taxonomy SECRET_KEY 0).1 "x",
   (jwtDecode_error_taxonomy SECRET_KEY 0).2.1
     { sub := some "web", exp := 9 }
     ("bad", { sub := some "web", exp := 9 }) (by decide),
   (jwtDecode_error_taxonomy SECRET_KEY 9).2.2.1
     { sub := some "web", exp := 9 } (by decide)⟩

/-- C8: every token returned by a successful login is the configured
username signed with the server secret, stamped with expiry equal to
issuance time plus 30 minutes (`ACCESS_TOKEN_EXPIRE_MINUTES`), and the
response's token type is `bearer`. -/
theorem login_token_lifetime (USERNAME PASSWORD fu fp : String) (now : Nat)
    (resp : TokenResponse)
    (h : login USERNAME PASSWORD fu fp now = .ok resp) :
    resp.access_token =
      jwtEncode { sub := some USERNAME,
                  exp := now + timedelta_minutes ACCESS_TOKEN_EXPIRE_MINUTES }
        SECRET_KEY
    ∧ resp.token_type = "bearer" := by
  rw [login, authenticate_user_eq] at h
  by_cases hc : USERNAME = fu ∧ fp = PASSWORD
  · rw [if_pos hc] at h
    simp only [Except.ok.injEq] at h
    subst h
    refine ⟨?_, rfl⟩
    simp [create_access_token, jwtEncode, hc.1]
  · rw [if_neg hc] at h
    cases h

/-- Witness for C8: the token issued by a concrete successful login at
time 0 expires at 1800 seconds (30 minutes). -/
theorem login_token_lifetime_witness :
    jwtEncode { sub := some "web", exp := 1800 } SECRET_KEY =
      jwtEncode { sub := some "web",
                  exp := 0 + timedelta_minutes ACCESS_TOKEN_EXPIRE_MINUTES }
        SECRET_KEY
    ∧ ("bearer" : String) = "bearer" :=
  login_token_lifetime "web" "pw" "web" "pw" 0
    { access_token := jwtEncode { sub := some "web", exp := 1800 } SECRET_KEY,
      token_type := "bearer" } (by decide)

/-- C4: for the `/order` route, when the bearer token is missing or
fails `get_access`, the response is Unauthorized (status 401) and the
list of RPC-client calls made during the request is empty; conversely,
any request that did reach the backend had a token accepted by
`get_access`. -/
theorem send_order_auth_gate (USERNAME : String) (rpc : RpcClient)
    (model : OrderRequestModel) (token : Option JwtToken) (now : Nat) :
    ((∀ t, token = some t → get_access USERNAME t now ≠ .ok true) →
      (∃ e, (send_order_route USERNAME rpc model token now).1 = .error e
        ∧ e.status_code = 401)
      ∧ (send_order_route USERNAME rpc model token now).2 = [])
    ∧ ((send_order_route USERNAME rpc model token now).2 ≠ [] →
      ∃ t, token = some t ∧ get_access USERNAME t now = .ok true) := by
  cases token with
  | none =>
    exact ⟨fun _ => ⟨⟨_, rfl, rfl⟩, rfl⟩, fun h2 => absurd rfl h2⟩
  | some t =>
    rcases get_access_cases USERNAME t now with hok | herr
    · exact ⟨fun hfail => absurd hok (hfail t rfl), fun _ => ⟨t, rfl, hok⟩⟩
    · have h1 : (send_order_route USERNAME rpc model (some t) now).1
          = .error credentials_exception := by
        simp [send_order_route, oauth2_scheme, herr]
      have h2 : (send_order_route USERNAME rpc model (some t) now).2 = [] := by
        simp [send_order_route, oauth2_scheme, herr]
      exact ⟨fun _ => ⟨⟨credentials_exception, h1, rfl⟩, h2⟩,
        fun hne => absurd h2 hne⟩

/-- Witness for C4: an `/order` request with no bearer token gets a 401
and performs no backend call. -/
theorem send_order_auth_gate_witness :
    (∃ e, (send_order_route "web"
        { contracts := fun _ => none, send_order_result := "oid" }
        { symbol := "AAPL", exchange := "NASDAQ", direction := "long",
          type := "limit", volume := 1 } none 0).1 = .error e
      ∧ e.status_code = 401)
    ∧ (send_order_route "web"
        { contracts := fun _ => none, send_order_result := "oid" }
        { symbol := "AAPL", exchange := "NASDAQ", direction := "long",
          type := "limit", volume := 1 } none 0).2 = [] :=
  (send_order_auth_gate "web"
    { contracts := fun _ => none, send_order_result := "oid" }
    { symbol := "AAPL", exchange := "NASDAQ", direction := "long",
      type := "limit", volume := 1 } none 0).1
    (fun _t h => Option.noConfusion h)

/-- Counterexample to C1 as stated: with registry
`[{id 1, failing send}, {id 2, healthy send}]`, the broadcast delivers
to nobody — connection 2's own send does not fail, yet it receives zero
copies, because connection 1's send raised an uncaught exception that
aborted the loop iteration (`websocket_broadcast` has no error
handling). -/
theorem websocket_broadcast_counterexample :
    (websocket_broadcast
      [{ id := 1, send_ok := false }, { id := 2, send_ok := true }] "m").1 = []
    ∧ (websocket_broadcast
      [{ id := 1, send_ok := false }, { id := 2, send_ok := true }] "m").2
      = some 1 := by
  constructor <;> rfl

/-- C1 amended: when no send fails, every registered connection receives
the message — exactly one copy each when the registered connections are
distinct (the delivery list then has no duplicate and contains each
connection's copy); but a send failure on one connection raises out of
the loop: the connections before the failing one each receive exactly
one copy, while the failing connection and every connection after it
receive nothing. -/
theorem websocket_broadcast_amended (active pre post : List WS) (ws : WS)
    (msg : String) :
    ((∀ w ∈ active, w.send_ok = true) →
      (websocket_broadcast active msg).1
          = active.map (fun w => (w.id, msg))
      ∧ (websocket_broadcast active msg).2 = none
      ∧ (∀ w ∈ active, (w.id, msg) ∈ (websocket_broadcast active msg).1)
      ∧ ((active.map WS.id).Nodup → (websocket_broadcast active msg).1.Nodup))
    ∧ ((∀ w ∈ pre, w.send_ok = true) → ws.send_ok = false →
      (websocket_broadcast (pre ++ ws :: post) msg).1
          = pre.map (fun w => (w.id, msg))
      ∧ (websocket_broadcast (pre ++ ws :: post) msg).2 = some ws.id) := by
  have hall : ∀ (l : List WS), (∀ w ∈ l, w.send_ok = true) →
      (websocket_broadcast l msg).1 = l.map (fun w => (w.id, msg))
      ∧ (websocket_broadcast l msg).2 = none := by
    intro l hl
    induction l with
    | nil => exact ⟨rfl, rfl⟩
    | cons w rest ih =>
      have hw : w.send_ok = true := hl w (by simp)
      have hrest := ih (fun x hx => hl x (by simp [hx]))
      simp [websocket_broadcast, hw, hrest.1, hrest.2]
  constructor
  · intro hok
    obtain ⟨hdel, herr⟩ := hall active hok
    refine ⟨hdel, herr, ?_, ?_⟩
    · intro w hw
      rw [hdel]
      exact List.mem_map_of_mem _ hw
    · intro hnd
      rw [hdel]
      have : active.map (fun w => (w.id, msg))
          = (active.map WS.id).map (fun i => (i, msg)) := by
        simp [List.map_map, Function.comp]
      rw [this]
      exact hnd.map (fun a b hab => (Prod.mk.injEq _ _ _ _ ▸ hab).1)
  · intro hpre hws
    induction pre with
    | nil => simp [websocket_broadcast, hws]
    | cons w rest ih =>
      have hw : w.send_ok = true := hpre w (by simp)
      have hrest := ih (fun x hx => hpre x (by simp [hx]))
      simp [websocket_broadcast, hw, hrest.1, hrest.2]

/-- Witness for C1 amended: all-healthy registry of two connections gets
two deliveries; registry `[healthy 1, failing 2, healthy 3]` delivers
only to connection 1 and raises from connection 2. -/
theorem websocket_broadcast_amended_witness :
    ((websocket_broadcast [{ id := 1, send_ok := true },
        { id := 2, send_ok := true }] "m").1 = [(1, "m"), (2, "m")]
      ∧ (websocket_broadcast [{ id := 1, send_ok := true },
        { id := 2, send_ok := true }] "m").2 = none)
    ∧ ((websocket_broadcast [{ id := 1, send_ok := true },
        { id := 2, send_ok := false }, { id := 3, send_ok := true }] "m").1
        = [(1, "m")]
      ∧ (websocket_broadcast [{ id := 1, send_ok := true },
        { id := 2, send_ok := false }, { id := 3, send_ok := true }] "m").2
        = some 2) := by
  constructor
  · have h := (websocket_broadcast_amended
      [{ id := 1, send_ok := true }, { id := 2, send_ok := true }]
      [] [] { id := 0, send_ok := true } "m").1 (by decide)
    exact ⟨h.1, h.2.1⟩
  · exact (websocket_broadcast_amended []
      [{ id := 1, send_ok := true }]
      [{ id := 3, send_ok := true }] { id := 2, send_ok := false } "m").2
      (by decide) (by decide)

/-- Counterexample to C2 as stated: an expired (or otherwise
undecodable) token does NOT produce the policy-violation close.
`get_websocket_access` calls `jwt.decode` with no surrounding `try`, so
the decode error propagates uncaught and `websocket.close(1008)` is
never executed: for a well-signed token for the configured user that has
expired, the handshake ends in an uncaught `expired` error, not in
`policyViolationClose`. -/
theorem get_websocket_access_counterexample :
    get_websocket_access "web"
      (some (jwtEncode { sub := some "web", exp := 10 } SECRET_KEY)) 100
      = .uncaughtError .expired
    ∧ get_websocket_access "web"
      (some (jwtEncode { sub := some "web", exp := 10 } SECRET_KEY)) 100
      ≠ .policyViolationClose := by
  constructor
  · rfl
  · decide

/-- C2 amended: a missing token, or a token that decodes but whose
subject is absent or differs from the configured username, closes the
handshake with the policy-violation code; a token that fails decoding
(invalid signature, expired, or malformed) instead raises that decode
error uncaught, without the policy-violation close; in every one of
these failure cases the endpoint body never runs, so the connection is
never added to the registry and is sent zero broadcast messages. -/
theorem get_websocket_access_amended (USERNAME : String)
    (token : Option JwtToken) (now : Nat) :
    (token = none →
      get_websocket_access USERNAME token now = .policyViolationClose)
    ∧ (∀ t e, token = some t → jwtDecode t SECRET_KEY now = .error e →
      get_websocket_access USERNAME token now = .uncaughtError e)
    ∧ (∀ t payload, token = some t →
      jwtDecode t SECRET_KEY now = .ok payload →
      (payload.sub = none ∨
        ∃ u, payload.sub = some u ∧ compare_digest USERNAME u = false) →
      get_websocket_access USERNAME token now = .policyViolationClose)
    ∧ (get_websocket_access USERNAME token now ≠ .accepted →
      websocket_endpoint_registers USERNAME token now = false) := by
  refine ⟨?_, ?_, ?_, ?_⟩
  · rintro rfl
    rfl
  · rintro t e rfl hd
    simp [get_websocket_access, hd]
  · rintro t payload rfl hd hsub
    rcases hsub with hnone | ⟨u, hu, hne⟩
    · simp [get_websocket_access, hd, hnone]
    · simp [get_websocket_access, hd, hu, hne]
  · intro hna
    cases hacc : get_websocket_access USERNAME token now with
    | accepted => exact absurd hacc hna
    | policyViolationClose => simp [websocket_endpoint_registers, hacc]
    | uncaughtError e => simp [websocket_endpoint_registers, hacc]

/-- Witness for C2 amended: a missing token gets the policy-violation
close and the connection is not registered; a token signed with a wrong
key raises an uncaught invalid-signature error and is not registered. -/
theorem get_websocket_access_amended_witness :
    get_websocket_access "web" none 0 = .policyViolationClose
    ∧ get_websocket_access "web"
        (some (.signed { sub := some "web", exp := 100 }
          (jwtSign "other" { sub := some "web", exp := 100 }))) 0
      = .uncaughtError .invalidSignature
    ∧ websocket_endpoint_registers "web" none 0 = false := by
  refine ⟨(get_websocket_access_amended "web" none 0).1 rfl, ?_, ?_⟩
  · exact (get_websocket_access_amended "web"
      (some (.signed { sub := some "web", exp := 100 }
        (jwtSign "other" { sub := some "web", exp := 100 }))) 0).2.1
      _ _ rfl (by decide)
  · exact (get_websocket_access_amended "web" none 0).2.2.2 (by decide)

/-- Counterexample to C9 as stated: the reachable registry `[ws]` with
`ws = {id 1, failing send}` is subjected to a broadcast that observes
the send failure on `ws` (the broadcast reports `ws`'s id as the raiser),
yet `websocket_broadcast` performs no registry mutation — the registry
after the broadcast completes is the same list, which still contains the
failed connection. -/
theorem registry_retains_failed_counterexample :
    Reachable [{ id := 1, send_ok := false }]
    ∧ (websocket_broadcast [{ id := 1, send_ok := false }] "m").2 = some 1
    ∧ { id := 1, send_ok := false } ∈
        ([{ id := 1, send_ok := false }] : List WS) :=
  ⟨Reachable.broadcast _ "m"
    (Reachable.connect [] { id := 1, send_ok := false } (by simp)
      Reachable.init),
   rfl, by simp⟩

/-- C9 amended: the duplicate-freedom half of the invariant holds — in
every reachable registry state no connection identity appears twice
(fresh object on connect, removal on disconnect, no mutation on
broadcast) — while the failed-connection half fails, as the
counterexample shows: a connection whose send errored during a broadcast
is retained. -/
theorem registry_nodup_invariant (s : List WS) (h : Reachable s) :
    (s.map WS.id).Nodup := by
  induction h with
  | init => simp
  | connect s ws hfresh _ ih =>
    rw [List.map_append]
    simp only [List.map_cons, List.map_nil]
    rw [List.nodup_append]
    refine ⟨ih, List.nodup_singleton _, ?_⟩
    intro a ha hb
    simp only [List.mem_singleton] at hb
    subst hb
    exact hfresh ha
  | disconnect s ws hmem _ ih =>
    exact ih.sublist ((s.erase_sublist ws).map WS.id)
  | broadcast s msg _ ih => exact ih

/-- Witness for C9 amended: the registry reached by two connects and one
broadcast has distinct connection identities. -/
theorem registry_nodup_invariant_witness :
    (([{ id := 1, send_ok := true }, { id := 2, send_ok := false }] :
      List WS).map WS.id).Nodup :=
  registry_nodup_invariant _
    (Reachable.broadcast _ "m"
      (Reachable.connect [{ id := 1, send_ok := true }]
        { id := 2, send_ok := false } (by simp)
        (Reachable.connect [] { id := 1, send_ok := true } (by simp)
          Reachable.init)))

end WebTrader
